import Mathlib

/-!
Shallow embedding of the "Young Vision" single-page app core
(`src/App.tsx`): the image-normalizer dimension computation
(`resizeImage`, lines 10–46) and the session state machine
(`handleFileSelect`, `handleCameraCapture`, `handleGenerate`,
`resetApp`, lines 48–100), together with proofs of the spec's claims
about them.
-/

namespace YoungVision

/-- JavaScript `Math.round (a / b)` for nonnegative operands, computed on
exact rationals: `⌊a / b + 1/2⌋ = (2a + b) / (2b)` in natural division
(ties round up, as `Math.round` does for nonnegative arguments). -/
def jsRound (a b : ℕ) : ℕ := (2 * a + b) / (2 * b)

/-- Dimension computation of `resizeImage` (App.tsx lines 19–30):

```
let width = img.width; let height = img.height;
if (width > maxWidth || height > maxHeight) {
  if (width > height) {
    height = Math.round((height * maxWidth) / width);
    width = maxWidth;
  } else {
    width = Math.round((width * maxHeight) / height);
    height = maxHeight;
  }
}
```

Returns the `(canvas.width, canvas.height)` pair the function draws into. -/
def resizeImageDims (width height maxWidth maxHeight : ℕ) : ℕ × ℕ :=
  if maxWidth < width ∨ maxHeight < height then
    if height < width then
      (maxWidth, jsRound (height * maxWidth) width)
    else
      (jsRound (width * maxHeight) height, maxHeight)
  else
    (width, height)

/-- ASCII whitespace characters removed by JavaScript `String.prototype.trim`
(the full JS set also covers further Unicode space code points; prompts here
are modelled over this core set). -/
def jsWhitespace (c : Char) : Bool :=
  c == ' ' || c == '\t' || c == '\n' || c == '\r' || c == '\x0b' || c == '\x0c'

/-- JavaScript `s.trim()`: drop leading and trailing whitespace. -/
def jsTrim (s : String) : String :=
  ⟨((s.data.dropWhile jsWhitespace).reverse.dropWhile jsWhitespace).reverse⟩

/-- The `AppState` enum referenced by `App.tsx` (imported from `./types`):
`IDLE`, `CAPTURING`, `PREVIEW` (the spec's `Reviewing`), `GENERATING`,
`RESULT`. -/
inductive AppState where
  | IDLE
  | CAPTURING
  | PREVIEW
  | GENERATING
  | RESULT
deriving DecidableEq

/-- A user-supplied `File` object (opaque binary blob plus metadata); only
its identity matters to the session logic, so it is modelled as an opaque
token. -/
abbrev File := String

/-- The six `useState` fields of the `App` component (App.tsx lines 49–54):
`appState`, `selectedFile`, `previewUrl`, `prompt`, `generatedImage`,
`error`. -/
structure Session where
  appState : AppState
  selectedFile : Option File
  previewUrl : Option String
  prompt : String
  generatedImage : Option String
  error : Option String
deriving DecidableEq

/-- The initial values of the six `useState` hooks:
`IDLE, null, null, '', null, null`. -/
def initialSession : Session :=
  { appState := AppState.IDLE
    selectedFile := none
    previewUrl := none
    prompt := ""
    generatedImage := none
    error := none }

/-- Outcome of `await resizeImage(selectedFile)` inside `handleGenerate`:
either a base64 payload, or a rejection carrying the underlying technical
cause (image decode failure or file read failure). -/
inductive ResizeOutcome where
  | ok (base64 : String)
  | err (cause : String)
deriving DecidableEq

/-- Outcome of `await generateFutureSelf(...)`: either a result URL, or a
rejection whose `message` property is a string (possibly empty) or absent
(`none`, e.g. a thrown non-Error value). -/
inductive GenOutcome where
  | ok (url : String)
  | err (message : Option String)
deriving DecidableEq

/-- JavaScript `m || fallback` on an optional string: `undefined` and the
empty string are falsy, any other string is returned as-is. -/
def jsOrElse (m : Option String) (fallback : String) : String :=
  match m with
  | some t => if t = "" then fallback else t
  | none => fallback

/-- The fixed user-facing message substituted for any normalization failure
(App.tsx line 79). -/
def processErrMsg : String := "Failed to process image. Please try a different photo."

/-- The fallback message used when the generation collaborator's rejection
carries no truthy message (App.tsx line 88). -/
def genFallbackMsg : String := "Failed to generate image. Please try again."

/-- External collaborators that `handleGenerate` may invoke, in order:
the image normalizer (`resizeImage`) and the generation service
(`generateFutureSelf`). -/
inductive CollabCall where
  | normalize
  | generate
deriving DecidableEq

/-- Browser object-URL API calls a handler performs
(`URL.createObjectURL` / `URL.revokeObjectURL`). -/
inductive URLCall where
  | create (f : File)
  | revoke (url : String)
deriving DecidableEq

/-- Whether a browser call is a `URL.revokeObjectURL` invocation. -/
def URLCall.isRevoke : URLCall → Bool
  | URLCall.revoke _ => true
  | URLCall.create _ => false

/-- `handleGenerate` (App.tsx lines 68–91), as a function of the session and
of the outcomes the two awaited collaborators would deliver; returns the
resulting session together with the list of collaborators actually invoked:

```
if (!selectedFile || !prompt.trim()) return;
setAppState(GENERATING); setError(null);
try {
  let base64;
  try { base64 = await resizeImage(selectedFile); }
  catch (resizeError) { throw new Error("Failed to process image. ..."); }
  const resultUrl = await generateFutureSelf(base64, 'image/jpeg', prompt);
  setGeneratedImage(resultUrl); setAppState(RESULT);
} catch (err) {
  setError(err.message || "Failed to generate image. ...");
  setAppState(PREVIEW);
}
```

The inner catch discards the technical cause and rethrows the fixed message,
which the outer catch stores (a nonempty string, so `||` keeps it). -/
def handleGenerate (s : Session) (rz : ResizeOutcome) (gn : GenOutcome) :
    Session × List CollabCall :=
  if s.selectedFile = none ∨ jsTrim s.prompt = "" then
    (s, [])
  else
    match rz with
    | ResizeOutcome.err _ =>
        ({ s with appState := AppState.PREVIEW
                  error := some processErrMsg },
         [CollabCall.normalize])
    | ResizeOutcome.ok _ =>
        match gn with
        | GenOutcome.ok url =>
            ({ s with appState := AppState.RESULT
                      error := none
                      generatedImage := some url },
             [CollabCall.normalize, CollabCall.generate])
        | GenOutcome.err m =>
            ({ s with appState := AppState.PREVIEW
                      error := some (jsOrElse m genFallbackMsg) },
             [CollabCall.normalize, CollabCall.generate])

/-- `handleFileSelect` (App.tsx lines 56–60): store the file, store a fresh
object URL produced by `URL.createObjectURL(file)` (supplied here by the
browser environment as `url`), and move to `PREVIEW`. The other three fields
are untouched, and no `URL.revokeObjectURL` call is made. -/
def handleFileSelect (s : Session) (f : File) (url : String) :
    Session × List URLCall :=
  ({ s with selectedFile := some f
            previewUrl := some url
            appState := AppState.PREVIEW },
   [URLCall.create f])

/-- `handleCameraCapture` (App.tsx lines 62–66): identical body to
`handleFileSelect`. -/
def handleCameraCapture (s : Session) (f : File) (url : String) :
    Session × List URLCall :=
  ({ s with selectedFile := some f
            previewUrl := some url
            appState := AppState.PREVIEW },
   [URLCall.create f])

/-- `resetApp` (App.tsx lines 93–100): set every field back to its initial
value. No browser URL call is made. -/
def resetApp (_s : Session) : Session × List URLCall :=
  ({ appState := AppState.IDLE
     selectedFile := none
     previewUrl := none
     prompt := ""
     generatedImage := none
     error := none },
   [])

/-- The UI events that can drive the session, each dispatched to the handler
`App.tsx` wires it to. `fileSelect`/`cameraCapture` carry the fresh object
URL the browser mints; `generate` carries the outcomes the two awaited
collaborators deliver (the submission is modelled as one atomic transition:
while `GENERATING` is shown, the UI exposes no further controls). -/
inductive Event where
  | fileSelect (f : File) (url : String)
  | cameraCapture (f : File) (url : String)
  | cameraRequest
  | cameraCancel
  | promptEdit (t : String)
  | generate (rz : ResizeOutcome) (gn : GenOutcome)
  | reset

/-- One step of the session state machine: `cameraRequest` is the
`onCameraSelect` callback `() => setAppState(CAPTURING)` (line 128),
`cameraCancel` is `onCancel={() => setAppState(IDLE)}` (line 140),
`promptEdit` is the textarea's `onChange` (line 181); the rest dispatch to
the named handlers. -/
def step (s : Session) : Event → Session
  | Event.fileSelect f url => (handleFileSelect s f url).1
  | Event.cameraCapture f url => (handleCameraCapture s f url).1
  | Event.cameraRequest => { s with appState := AppState.CAPTURING }
  | Event.cameraCancel => { s with appState := AppState.IDLE }
  | Event.promptEdit t => { s with prompt := t }
  | Event.generate rz gn => (handleGenerate s rz gn).1
  | Event.reset => (resetApp s).1

/-- Sessions reachable from the initial render by any sequence of events. -/
inductive Reachable : Session → Prop where
  | init : Reachable initialSession
  | next (s : Session) (e : Event) (hs : Reachable s) : Reachable (step s e)

/-- A concrete session sitting in `PREVIEW` with a selected file and a
nonempty prompt, as after a selection and a prompt edit. -/
def sReview : Session :=
  { appState := AppState.PREVIEW
    selectedFile := some "photo.jpg"
    previewUrl := some "blob:a1"
    prompt := "playing astronaut"
    generatedImage := none
    error := none }

/-- A concrete session in `PREVIEW` carrying a stale error and a stale
generation result from an earlier failed and an earlier successful
submission. -/
def sStale : Session :=
  { appState := AppState.PREVIEW
    selectedFile := some "photo.jpg"
    previewUrl := some "blob:old"
    prompt := "playing astronaut"
    generatedImage := some "data:old-result"
    error := some "quota exceeded" }

/-- The session obtained by selecting a file, typing a prompt, and running a
submission in which both collaborators succeed. -/
def sAfterSuccess : Session :=
  step (step (step initialSession (Event.fileSelect "photo.jpg" "blob:a1"))
      (Event.promptEdit "playing astronaut"))
    (Event.generate (ResizeOutcome.ok "b64") (GenOutcome.ok "data:result"))

/-- Scaling a dimension `x` by its own bound ratio `x / M` (i.e. computing
`round (x * M / x)`) yields exactly `M`. -/
lemma jsRound_mul_self (M x : ℕ) (hx : 0 < x) : jsRound (x * M) x = M := by
  unfold jsRound
  have h1 : 2 * (x * M) + x = x * (2 * M + 1) := by ring
  have h2 : 2 * x = x * 2 := by ring
  rw [h1, h2, Nat.mul_div_mul_left _ _ hx]
  omega

/-- Scaling a dimension `a ≤ x` by the dominant dimension's ratio `x / M`
stays below the bound `M`. -/
lemma jsRound_le (a x M : ℕ) (hx : 0 < x) (hax : a ≤ x) :
    jsRound (a * M) x ≤ M := by
  have hmul : a * M ≤ x * M := Nat.mul_le_mul_right M hax
  calc jsRound (a * M) x = (2 * (a * M) + x) / (2 * x) := rfl
    _ ≤ (2 * (x * M) + x) / (2 * x) := Nat.div_le_div_right (by omega)
    _ = M := jsRound_mul_self M x hx

/-- C1 (amended): when the two bounds are equal — as in the only
configuration the app uses, the default `1024 × 1024` — `resizeImage` on an
out-of-bounds image scales both dimensions by the single ratio
`max w h / M = max (w / M) (h / M)` with rounding, so both outputs are
within the bound and the aspect ratio is preserved up to integer rounding.
(For unequal bounds the branch is chosen by comparing `w` with `h`, not the
two ratios, and the guarantee fails; see the counterexample.) -/
theorem c1_resize_scales_by_max_ratio (w h M : ℕ) (hw : 0 < w) (hh : 0 < h)
    (hex : M < w ∨ M < h) :
    (resizeImageDims w h M M).1 ≤ M ∧ (resizeImageDims w h M M).2 ≤ M ∧
    (resizeImageDims w h M M).1 = jsRound (w * M) (max w h) ∧
    (resizeImageDims w h M M).2 = jsRound (h * M) (max w h) := by
  unfold resizeImageDims
  rw [if_pos hex]
  by_cases hwh : h < w
  · rw [if_pos hwh]
    have hmax : max w h = w := max_eq_left hwh.le
    exact ⟨le_refl M, jsRound_le h w M hw hwh.le,
      by rw [hmax, jsRound_mul_self M w hw],
      by rw [hmax]⟩
  · rw [if_neg hwh]
    have hwh' : w ≤ h := le_of_not_lt hwh
    have hmax : max w h = h := max_eq_right hwh'
    exact ⟨jsRound_le w h M hh hwh', le_refl M,
      by rw [hmax],
      by rw [hmax, jsRound_mul_self M h hh]⟩

/-- Witness for C1 at the spec's scenario input `4000 × 3000` under the
default `1024 × 1024` bounds: output `1024 × 768`. -/
theorem c1_witness :
    (0 < 4000 ∧ 0 < 3000 ∧ (1024 < 4000 ∨ 1024 < 3000)) ∧
    ((resizeImageDims 4000 3000 1024 1024).1 ≤ 1024 ∧
     (resizeImageDims 4000 3000 1024 1024).2 ≤ 1024 ∧
     (resizeImageDims 4000 3000 1024 1024).1 = jsRound (4000 * 1024) (max 4000 3000) ∧
     (resizeImageDims 4000 3000 1024 1024).2 = jsRound (3000 * 1024) (max 4000 3000)) :=
  ⟨by decide,
   c1_resize_scales_by_max_ratio 4000 3000 1024 (by decide) (by decide)
     (Or.inl (by decide))⟩

/-- Counterexample to C1 as stated: a decodable `100 × 90` image with
positive bounds `maxWidth = 1000`, `maxHeight = 30` exceeds `maxHeight`, yet
the code takes the `width > height` branch, scales to `maxWidth`, and
returns `1000 × 900` — the output height is far above its bound (the claim
promises both dimensions within bounds), and both dimensions were upscaled
rather than scaled down by `max (100/1000) (90/30) = 3`. -/
theorem c1_counterexample :
    0 < 100 ∧ 0 < 90 ∧ 30 < 90 ∧
    resizeImageDims 100 90 1000 30 = (1000, 900) ∧
    ¬ (resizeImageDims 100 90 1000 30).2 ≤ 30 := by decide

/-- C7: for every input whose intrinsic dimensions are both within the
bounds, `resizeImage` leaves the dimensions unchanged (no upscaling), and
therefore re-normalizing the output with the same configuration is a no-op
on dimensions (idempotence). -/
theorem c7_resize_in_bounds_id (w h mw mh : ℕ) (hw : w ≤ mw) (hh : h ≤ mh) :
    resizeImageDims w h mw mh = (w, h) ∧
    resizeImageDims (resizeImageDims w h mw mh).1 (resizeImageDims w h mw mh).2 mw mh
      = resizeImageDims w h mw mh := by
  have hcond : ¬ (mw < w ∨ mh < h) := by omega
  have h1 : resizeImageDims w h mw mh = (w, h) := by
    unfold resizeImageDims
    rw [if_neg hcond]
  refine ⟨h1, ?_⟩
  rw [h1]
  exact h1

/-- Witness for C7 at an in-bounds `800 × 600` image under the default
`1024 × 1024` bounds. -/
theorem c7_witness :
    (800 ≤ 1024 ∧ 600 ≤ 1024) ∧
    (resizeImageDims 800 600 1024 1024 = (800, 600) ∧
     resizeImageDims (resizeImageDims 800 600 1024 1024).1
       (resizeImageDims 800 600 1024 1024).2 1024 1024
       = resizeImageDims 800 600 1024 1024) :=
  ⟨by decide, c7_resize_in_bounds_id 800 600 1024 1024 (by decide) (by decide)⟩

/-- C9: the scaled dimension is `Math.round`ed with no clamp to a minimum of
1, so the decodable `5000 × 1` image with positive intrinsic dimensions
yields output height `round (1 * 1024 / 5000) = round 0.2048 = 0` under the
default `1024 × 1024` bounds. -/
theorem c9_extreme_aspect_height_zero :
    0 < 5000 ∧ 0 < 1 ∧
    resizeImageDims 5000 1 1024 1024 = (1024, 0) := by decide

/-- C2: whenever the selected file is absent or the prompt trims to empty,
`handleGenerate` returns early — the session is returned unchanged in every
field and neither the normalizer nor the generation collaborator is
invoked. -/
theorem c2_submit_noop_without_input (s : Session) (rz : ResizeOutcome)
    (gn : GenOutcome) (h : s.selectedFile = none ∨ jsTrim s.prompt = "") :
    handleGenerate s rz gn = (s, []) := by
  unfold handleGenerate
  rw [if_pos h]

/-- Witness for C2: submitting from the initial session (no file selected,
empty prompt) changes nothing and calls no collaborator. -/
theorem c2_witness :
    handleGenerate initialSession (ResizeOutcome.ok "b64") (GenOutcome.ok "u")
      = (initialSession, []) :=
  c2_submit_noop_without_input initialSession (ResizeOutcome.ok "b64")
    (GenOutcome.ok "u") (Or.inl rfl)

/-- C3: every failing submission (normalization rejection, or generation
rejection) ends in `PREVIEW` — hence neither in `IDLE` nor stuck in
`GENERATING` — with the selected file, prompt, preview, and prior result
exactly equal to their pre-submission values; only the lifecycle state and
the error field are written, and the error field carries a message. -/
theorem c3_failed_submission_frame (s : Session) (f : File)
    (rz : ResizeOutcome) (gn : GenOutcome)
    (hf : s.selectedFile = some f) (hp : ¬ jsTrim s.prompt = "")
    (hfail : (∃ c, rz = ResizeOutcome.err c) ∨ (∃ m, gn = GenOutcome.err m)) :
    (handleGenerate s rz gn).1.appState = AppState.PREVIEW ∧
    (handleGenerate s rz gn).1.appState ≠ AppState.IDLE ∧
    (handleGenerate s rz gn).1.appState ≠ AppState.GENERATING ∧
    (handleGenerate s rz gn).1.selectedFile = s.selectedFile ∧
    (handleGenerate s rz gn).1.prompt = s.prompt ∧
    (handleGenerate s rz gn).1.previewUrl = s.previewUrl ∧
    (handleGenerate s rz gn).1.generatedImage = s.generatedImage ∧
    ∃ msg, (handleGenerate s rz gn).1.error = some msg := by
  have hguard : ¬ (s.selectedFile = none ∨ jsTrim s.prompt = "") := by
    simp [hf, hp]
  unfold handleGenerate
  rw [if_neg hguard]
  cases rz with
  | err c =>
    refine ⟨rfl, ?_, ?_, rfl, rfl, rfl, rfl, ⟨_, rfl⟩⟩
    · show AppState.PREVIEW ≠ AppState.IDLE
      decide
    · show AppState.PREVIEW ≠ AppState.GENERATING
      decide
  | ok b =>
    cases gn with
    | ok url =>
      exfalso
      rcases hfail with ⟨c, hc⟩ | ⟨m, hm⟩ <;> simp_all
    | err m =>
      refine ⟨rfl, ?_, ?_, rfl, rfl, rfl, rfl, ⟨_, rfl⟩⟩
      · show AppState.PREVIEW ≠ AppState.IDLE
        decide
      · show AppState.PREVIEW ≠ AppState.GENERATING
        decide

/-- Witness for C3: a normalization failure from a populated review session
lands back in `PREVIEW` with the file, prompt, preview and result intact and
an error recorded. -/
theorem c3_witness :
    (handleGenerate sReview (ResizeOutcome.err "bad EXIF") (GenOutcome.ok "u")).1.appState
      = AppState.PREVIEW ∧
    (handleGenerate sReview (ResizeOutcome.err "bad EXIF") (GenOutcome.ok "u")).1.appState
      ≠ AppState.IDLE ∧
    (handleGenerate sReview (ResizeOutcome.err "bad EXIF") (GenOutcome.ok "u")).1.appState
      ≠ AppState.GENERATING ∧
    (handleGenerate sReview (ResizeOutcome.err "bad EXIF") (GenOutcome.ok "u")).1.selectedFile
      = sReview.selectedFile ∧
    (handleGenerate sReview (ResizeOutcome.err "bad EXIF") (GenOutcome.ok "u")).1.prompt
      = sReview.prompt ∧
    (handleGenerate sReview (ResizeOutcome.err "bad EXIF") (GenOutcome.ok "u")).1.previewUrl
      = sReview.previewUrl ∧
    (handleGenerate sReview (ResizeOutcome.err "bad EXIF") (GenOutcome.ok "u")).1.generatedImage
      = sReview.generatedImage ∧
    ∃ msg, (handleGenerate sReview (ResizeOutcome.err "bad EXIF") (GenOutcome.ok "u")).1.error
      = some msg :=
  c3_failed_submission_frame sReview "photo.jpg" (ResizeOutcome.err "bad EXIF")
    (GenOutcome.ok "u") rfl (by decide) (Or.inl ⟨"bad EXIF", rfl⟩)

/-- C4: the reset event, from any session whatsoever, restores the initial
session: state `IDLE` and all of file, preview, prompt, result and error at
their initial empty values. -/
theorem c4_reset_restores_initial (s : Session) :
    step s Event.reset = initialSession ∧
    (step s Event.reset).appState = AppState.IDLE ∧
    (step s Event.reset).selectedFile = none ∧
    (step s Event.reset).previewUrl = none ∧
    (step s Event.reset).prompt = "" ∧
    (step s Event.reset).error = none ∧
    (step s Event.reset).generatedImage = none :=
  ⟨rfl, rfl, rfl, rfl, rfl, rfl, rfl⟩

/-- C5 (amended): selecting (or capturing) an image stores the new file and
its fresh preview URL and moves to `PREVIEW`, with capture behaving exactly
like selection — but the error field and any prior generation result are
left unchanged, not cleared (in the occurrences the UI can actually produce,
selection from `IDLE`, the error is already `none` beforehand). -/
theorem c5_select_stores_image_keeps_error (s : Session) (f : File) (url : String) :
    (handleFileSelect s f url).1.selectedFile = some f ∧
    (handleFileSelect s f url).1.previewUrl = some url ∧
    (handleFileSelect s f url).1.appState = AppState.PREVIEW ∧
    (handleFileSelect s f url).1.prompt = s.prompt ∧
    (handleFileSelect s f url).1.error = s.error ∧
    (handleFileSelect s f url).1.generatedImage = s.generatedImage ∧
    handleCameraCapture s f url = handleFileSelect s f url :=
  ⟨rfl, rfl, rfl, rfl, rfl, rfl, rfl⟩

/-- Counterexample to C5 as stated: re-selecting an image over a review
session that carries a stale error and a stale generation result neither
clears the error field nor discards the prior result — `handleFileSelect`
writes only `selectedFile`, `previewUrl` and `appState`. -/
theorem c5_counterexample :
    sStale.error = some "quota exceeded" ∧
    sStale.generatedImage = some "data:old-result" ∧
    (handleFileSelect sStale "new.jpg" "blob:new").1.error = some "quota exceeded" ∧
    ¬ (handleFileSelect sStale "new.jpg" "blob:new").1.error = none ∧
    (handleFileSelect sStale "new.jpg" "blob:new").1.generatedImage
      = some "data:old-result" := by decide

/-- C6 (amended): on normalization failure the error field is exactly the
fixed processing message, regardless of the underlying cause; on generation
failure it is the collaborator's message when that message is a nonempty
string, and exactly the fixed fallback when the message is absent or empty
(the code applies JavaScript `err.message || fallback`, under which the
empty string counts as absent). -/
theorem c6_error_messages (s : Session) (f : File)
    (hf : s.selectedFile = some f) (hp : ¬ jsTrim s.prompt = "") :
    (∀ c gn, (handleGenerate s (ResizeOutcome.err c) gn).1.error
        = some processErrMsg) ∧
    (∀ b t, ¬ t = "" →
      (handleGenerate s (ResizeOutcome.ok b) (GenOutcome.err (some t))).1.error
        = some t) ∧
    (∀ b, (handleGenerate s (ResizeOutcome.ok b) (GenOutcome.err none)).1.error
        = some genFallbackMsg) ∧
    (∀ b, (handleGenerate s (ResizeOutcome.ok b) (GenOutcome.err (some ""))).1.error
        = some genFallbackMsg) := by
  have hguard : ¬ (s.selectedFile = none ∨ jsTrim s.prompt = "") := by
    simp [hf, hp]
  refine ⟨?_, ?_, ?_, ?_⟩ <;> intros <;>
    simp [handleGenerate, hguard, jsOrElse, *]

/-- Witness for C6: the three message regimes at concrete inputs — fixed
processing message, passed-through collaborator message, and fallback. -/
theorem c6_witness :
    (handleGenerate sReview (ResizeOutcome.err "decode failed") (GenOutcome.ok "u")).1.error
      = some processErrMsg ∧
    (handleGenerate sReview (ResizeOutcome.ok "b64")
        (GenOutcome.err (some "quota exceeded"))).1.error = some "quota exceeded" ∧
    (handleGenerate sReview (ResizeOutcome.ok "b64") (GenOutcome.err none)).1.error
      = some genFallbackMsg :=
  ⟨(c6_error_messages sReview "photo.jpg" rfl (by decide)).1 "decode failed"
      (GenOutcome.ok "u"),
   (c6_error_messages sReview "photo.jpg" rfl (by decide)).2.1 "b64" "quota exceeded"
      (by decide),
   (c6_error_messages sReview "photo.jpg" rfl (by decide)).2.2.1 "b64"⟩

/-- Counterexample to C6 as stated: when the generation collaborator rejects
with a provided (but empty) message, the error field is the fallback, not
the provided message — `err.message || fallback` treats `""` as falsy. -/
theorem c6_counterexample :
    sReview.selectedFile = some "photo.jpg" ∧
    ¬ jsTrim sReview.prompt = "" ∧
    (handleGenerate sReview (ResizeOutcome.ok "b64")
        (GenOutcome.err (some ""))).1.error = some genFallbackMsg ∧
    ¬ (handleGenerate sReview (ResizeOutcome.ok "b64")
        (GenOutcome.err (some ""))).1.error = some "" := by decide

/-- C8 (amended): when a preview reference is superseded by selecting or
capturing a new image, or discarded by reset, the session merely overwrites
or drops the pointer — it performs no `URL.revokeObjectURL` call (selection
performs exactly one `URL.createObjectURL` call and reset performs no URL
call at all). -/
theorem c8_no_revocation (s : Session) (f : File) (url : String) :
    (handleFileSelect s f url).2 = [URLCall.create f] ∧
    (handleFileSelect s f url).2.any URLCall.isRevoke = false ∧
    (handleFileSelect s f url).1.previewUrl = some url ∧
    (handleCameraCapture s f url).2.any URLCall.isRevoke = false ∧
    (resetApp s).2 = [] ∧
    (resetApp s).1.previewUrl = none :=
  ⟨rfl, rfl, rfl, rfl, rfl, rfl⟩

/-- Counterexample to C8 as stated: superseding a stored preview
(`blob:old`) by a new selection, and discarding one by reset, both leave the
revocation log empty — the transient reference is never released, only the
pointer is replaced or dropped. -/
theorem c8_counterexample :
    sStale.previewUrl = some "blob:old" ∧
    (handleFileSelect sStale "new.jpg" "blob:new").1.previewUrl = some "blob:new" ∧
    (handleFileSelect sStale "new.jpg" "blob:new").2 = [URLCall.create "new.jpg"] ∧
    (handleFileSelect sStale "new.jpg" "blob:new").2.any URLCall.isRevoke = false ∧
    (resetApp sStale).1.previewUrl = none ∧
    (resetApp sStale).2 = [] := by decide

/-- C10: in every reachable session whose state is `RESULT` the error field
is `none`: the submit path clears the error on entry, the success path never
writes it, and the only write of a non-null error also sets the state to
`PREVIEW`. -/
theorem c10_result_state_error_free (s : Session) (hr : Reachable s)
    (hres : s.appState = AppState.RESULT) : s.error = none := by
  induction hr with
  | init => exact absurd hres (by decide)
  | next s e hs ih =>
    cases e with
    | fileSelect f url => exact absurd hres (by simp [step, handleFileSelect])
    | cameraCapture f url => exact absurd hres (by simp [step, handleCameraCapture])
    | cameraRequest => exact absurd hres (by simp [step])
    | cameraCancel => exact absurd hres (by simp [step])
    | promptEdit t => exact ih hres
    | reset => exact absurd hres (by simp [step, resetApp])
    | generate rz gn =>
      by_cases hg : s.selectedFile = none ∨ jsTrim s.prompt = ""
      · have hstep : step s (Event.generate rz gn) = s := by
          simp [step, handleGenerate, hg]
        rw [hstep] at hres ⊢
        exact ih hres
      · cases rz with
        | err c => exact absurd hres (by simp [step, handleGenerate, hg])
        | ok b =>
          cases gn with
          | ok url => simp [step, handleGenerate, hg]
          | err m => exact absurd hres (by simp [step, handleGenerate, hg])

/-- Witness for C10 at the concrete reachable run select → edit → successful
submission, which ends in `RESULT` with no error. -/
theorem c10_witness : sAfterSuccess.error = none :=
  c10_result_state_error_free sAfterSuccess
    (Reachable.next _ (Event.generate (ResizeOutcome.ok "b64") (GenOutcome.ok "data:result"))
      (Reachable.next _ (Event.promptEdit "playing astronaut")
        (Reachable.next _ (Event.fileSelect "photo.jpg" "blob:a1") Reachable.init)))
    (by decide)

end YoungVision
